import Mathlib

/-!
Verification of the NEO-explorer core: the two record types of
`src/models.py` (`NearEarthObject`, `CloseApproach`) and the two
serializers of `src/write.py` (`write_to_csv`, `write_to_json`),
shallowly embedded in Lean 4.

Modelling conventions:
* Raw constructor inputs coming from the loaded data set are either a
  Python `None` or a string (`RawValue`).
* Python floats are modelled exactly: a rational value, the two
  infinities, or the not-a-number sentinel (`PyFloat`).  The builtin
  `float(...)` coercion is modelled by `parseFloat`, covering the
  standard grammar (optional whitespace, sign, digits with an optional
  fractional part and exponent, and the `inf` / `infinity` / `nan`
  keywords).
* The external helpers `cd_to_datetime` / `datetime_to_str`
  (`helpers.py`, outside the serializer core) are modelled from the
  spec: the approach time is taken as an already-parsed timestamp and
  formatted to minute precision.
* File contents are modelled as the pure data the writers emit
  (header plus rows of Python values for CSV, a list of nested records
  for JSON); the final stringification is performed by the Python
  standard library, outside the source under verification.
-/

/-- A raw field value handed to a record constructor: Python `None`
or a string, the shapes produced by the external CSV/JSON loaders. -/
inductive RawValue where
  | none
  | str (s : String)
deriving DecidableEq, Repr

/-- Python truthiness of a raw value: `None` and the empty string are
falsy, every other string is truthy. -/
def RawValue.truthy : RawValue → Bool
  | .none => false
  | .str s => s ≠ ""

/-- A Python float: an exact rational, an infinity (`neg` gives the
sign), or the not-a-number sentinel used for "unknown". -/
inductive PyFloat where
  | nan
  | inf (neg : Bool)
  | val (q : ℚ)
deriving DecidableEq, Repr

/-- Whitespace characters stripped by Python's float conversion. -/
def isPySpace (c : Char) : Bool :=
  c = ' ' || c = '\t' || c = '\n' || c = '\r' || c = '\x0b' || c = '\x0c'

/-- Strip leading and trailing whitespace. -/
def trimSpaces (cs : List Char) : List Char :=
  ((cs.dropWhile isPySpace).reverse.dropWhile isPySpace).reverse

/-- Consume an optional leading sign; returns whether it was `-`. -/
def takeSign : List Char → Bool × List Char
  | '+' :: rest => (false, rest)
  | '-' :: rest => (true, rest)
  | cs => (false, cs)

/-- Numeric value of a decimal digit character. -/
def digitVal (c : Char) : Nat := c.toNat - '0'.toNat

/-- Whether every character is a decimal digit. -/
def allDigits (cs : List Char) : Bool := cs.all Char.isDigit

/-- Value of a nonempty digit string, most significant first. -/
def digitsToNat (cs : List Char) : Nat :=
  cs.foldl (fun acc c => 10 * acc + digitVal c) 0

/-- Split at the first exponent marker `e`/`E`, if any. -/
def splitOnExp : List Char → List Char × Option (List Char)
  | [] => ([], Option.none)
  | c :: rest =>
    if c = 'e' || c = 'E' then ([], some rest)
    else
      let (m, e) := splitOnExp rest
      (c :: m, e)

/-- Split at the first decimal point, if any. -/
def splitOnDot : List Char → List Char × Option (List Char)
  | [] => ([], Option.none)
  | c :: rest =>
    if c = '.' then ([], some rest)
    else
      let (i, f) := splitOnDot rest
      (c :: i, f)

/-- Parse an unsigned mantissa: digits, optionally with a decimal
point, at least one digit in total.  The value is returned as a pair
`(n, k)` denoting `n / 10 ^ k`. -/
def parseMantissa (cs : List Char) : Option (Nat × Nat) :=
  let (ip, fp) := splitOnDot cs
  match fp with
  | Option.none =>
    if ip ≠ [] ∧ allDigits ip then some (digitsToNat ip, 0) else Option.none
  | some fpart =>
    if (ip ≠ [] ∨ fpart ≠ []) ∧ allDigits ip ∧ allDigits fpart then
      some (digitsToNat ip * 10 ^ fpart.length + digitsToNat fpart, fpart.length)
    else Option.none

/-- Parse a signed exponent: optional sign then nonempty digits. -/
def parseExp (cs : List Char) : Option Int :=
  let (neg, ds) := takeSign cs
  if ds ≠ [] ∧ allDigits ds then
    some (if neg then -(digitsToNat ds : Int) else (digitsToNat ds : Int))
  else Option.none

/-- Assemble the exact rational value of a parsed literal: sign,
mantissa `n / 10 ^ k`, decimal exponent `e`. -/
def ratOfParts (neg : Bool) (n k : Nat) (e : Int) : ℚ :=
  let num : Int := if neg then -(n : Int) else (n : Int)
  match e with
  | .ofNat m => mkRat (num * ((10 ^ m : Nat) : Int)) (10 ^ k)
  | .negSucc m => mkRat num (10 ^ (k + (m + 1)))

/-- Parse the character content of a string as a Python float. -/
def parseFloatChars (cs : List Char) : Option PyFloat :=
  let cs := trimSpaces cs
  let (neg, body) := takeSign cs
  let low := body.map Char.toLower
  if low = "inf".toList || low = "infinity".toList then some (PyFloat.inf neg)
  else if low = "nan".toList then some PyFloat.nan
  else
    let (mant, exp) := splitOnExp body
    match parseMantissa mant, exp with
    | some (n, k), Option.none => some (PyFloat.val (ratOfParts neg n k 0))
    | some (n, k), some ecs =>
      match parseExp ecs with
      | some e => some (PyFloat.val (ratOfParts neg n k e))
      | Option.none => Option.none
    | Option.none, _ => Option.none

/-- The builtin `float(v)` on a raw value: `None` raises `TypeError`
(modelled as `Option.none`), a string is parsed (an unparsable string
raises `ValueError`, also `Option.none`). -/
def parseFloat : RawValue → Option PyFloat
  | .none => Option.none
  | .str s => parseFloatChars s.toList

/-- The `try: float(v) / except (ValueError, TypeError): float('nan')`
pattern shared by `models.py` lines 48-51, 100-103 and 105-108. -/
def pyFloatOf (v : RawValue) : PyFloat :=
  match parseFloat v with
  | some x => x
  | Option.none => PyFloat.nan

/-- The `str(v) if v else None` normalization of `models.py`
lines 46-47 and 97: falsy input becomes `None`, anything else is kept
as its string. -/
def strOrNone (v : RawValue) : Option String :=
  match v with
  | .none => Option.none
  | .str s => if s = "" then Option.none else some s

/-- Python truthiness of an optional-string attribute (`None` and the
empty string are falsy). -/
def pyTruthy (o : Option String) : Bool :=
  match o with
  | some s => s ≠ ""
  | Option.none => false

/-- A near-Earth object (`models.py` class `NearEarthObject`).  The
`approaches` list holds arena indices of linked close approaches
(the cyclic Python object graph is represented arena-style, see the
spec's design notes); it plays no role in the claims below. -/
structure NearEarthObject where
  designation : Option String
  name : Option String
  diameter : PyFloat
  hazardous : Bool
  approaches : List Nat
deriving DecidableEq, Repr

/-- The constructor `NearEarthObject.__init__` (`models.py`
lines 37-56). -/
def mkNearEarthObject (pdes name pha diameter : RawValue) : NearEarthObject :=
  { designation := strOrNone pdes
    name := strOrNone name
    diameter := pyFloatOf diameter
    hazardous := decide (pha = RawValue.str "Y")
    approaches := [] }

/-- An approach timestamp.  `cd_to_datetime` lives in `helpers.py`,
outside the core under verification; the time is modelled as the
already-parsed calendar fields. -/
structure DateTime where
  year : Nat
  month : Nat
  day : Nat
  hour : Nat
  minute : Nat
deriving DecidableEq, Repr

/-- Zero-pad a numeral to the given width. -/
def padNum (width n : Nat) : String :=
  let s := toString n
  String.mk (List.replicate (width - s.length) '0') ++ s

/-- Modelled from the spec: `datetime_to_str` of `helpers.py` is an
external timestamp-to-string conversion that formats the approach
time to minute precision (sub-minute figures are deliberately
dropped). -/
def datetime_to_str (t : DateTime) : String :=
  padNum 4 t.year ++ "-" ++ padNum 2 t.month ++ "-" ++ padNum 2 t.day ++
    " " ++ padNum 2 t.hour ++ ":" ++ padNum 2 t.minute

/-- A close approach (`models.py` class `CloseApproach`).  `neo` is
the reference installed by the external linking step, absent right
after construction. -/
structure CloseApproach where
  _designation : Option String
  time : DateTime
  distance : PyFloat
  velocity : PyFloat
  neo : Option NearEarthObject
deriving DecidableEq, Repr

/-- The constructor `CloseApproach.__init__` (`models.py`
lines 88-111); `cd` is taken already parsed by the external
`cd_to_datetime`. -/
def mkCloseApproach (des : RawValue) (cd : DateTime) (dist v_rel : RawValue) :
    CloseApproach :=
  { _designation := strOrNone des
    time := cd
    distance := pyFloatOf dist
    velocity := pyFloatOf v_rel
    neo := Option.none }

/-- The `time_str` property (`models.py` lines 113-126). -/
def CloseApproach.time_str (a : CloseApproach) : String :=
  datetime_to_str a.time

/-- The `fullname` property (`models.py` lines 58-61):
`self.designation + ' ' + self.name`.  When either attribute is
`None` the concatenation raises `TypeError`, modelled as
`Option.none`. -/
def NearEarthObject.fullname (neo : NearEarthObject) : Option String :=
  match neo.designation, neo.name with
  | some d, some n => some (d ++ " " ++ n)
  | _, _ => Option.none

/-- The object-reference phrase built by `CloseApproach.__str__`
(`models.py` lines 142-143): keyed on the truthiness of the
construction-time snapshot `self._designation`; only when that is
truthy does it consult the linked NEO's name, falling back to the
snapshot itself. -/
def neoReference (a : CloseApproach) : String :=
  if pyTruthy a._designation then
    "by " ++
      (match a.neo with
       | some neo =>
         match neo.name with
         | some n => if n ≠ "" then n else (a._designation.getD "")
         | Option.none => a._designation.getD ""
       | Option.none => a._designation.getD "")
  else "by an unknown object"

/-- A Python value placed in an output cell or field by the writers:
`None`, a string, a float, or a boolean. -/
inductive PyVal where
  | none
  | str (s : String)
  | float (x : PyFloat)
  | bool (b : Bool)
deriving DecidableEq, Repr

/-- Lift an optional string attribute to the Python value it denotes. -/
def pyValOfOptStr : Option String → PyVal
  | some s => PyVal.str s
  | Option.none => PyVal.none

/-- The seven CSV field names (`write.py` lines 27-34; the source
assigns the identical tuple twice). -/
def csvFieldnames : List String :=
  ["datetime_utc", "distance_au", "velocity_km_s",
   "designation", "name", "diameter_km", "potentially_hazardous"]

/-- The row dictionary built for one approach by `write_to_csv`
(`write.py` lines 42-50), as the list of values in `csvFieldnames`
order (the order `csv.DictWriter` emits them in). -/
def csvRowOf (approach : CloseApproach) : List PyVal :=
  let neo := approach.neo
  [ PyVal.str approach.time_str,
    PyVal.float approach.distance,
    PyVal.float approach.velocity,
    (match neo with
     | some n => pyValOfOptStr n.designation
     | Option.none => PyVal.str ""),
    (match neo with
     | some n => if pyTruthy n.name then PyVal.str (n.name.getD "") else PyVal.str ""
     | Option.none => PyVal.str ""),
    PyVal.float
      (match neo with
       | some n => n.diameter
       | Option.none => PyFloat.nan),
    PyVal.bool
      (match neo with
       | some n => n.hazardous
       | Option.none => false) ]

/-- A CSV file's content: the header row then the data rows (the
textual encoding is done by the `csv` standard library module). -/
structure CsvFile where
  header : List String
  rows : List (List PyVal)
deriving DecidableEq, Repr

/-- The content written by `write_to_csv` (`write.py` lines 17-50):
the header, then one row per approach of the `results` stream, in
stream order. -/
def write_to_csv (results : List CloseApproach) : CsvFile :=
  { header := csvFieldnames
    rows := results.map csvRowOf }

/-- The nested NEO dictionary of one JSON entry (`write.py`
lines 72-77). -/
structure NeoJson where
  designation : PyVal
  name : PyVal
  diameter_km : PyFloat
  potentially_hazardous : Bool
deriving DecidableEq, Repr

/-- One entry of the JSON output document (`write.py` lines 68-78). -/
structure ApproachJson where
  datetime_utc : String
  distance_au : PyFloat
  velocity_km_s : PyFloat
  neo : NeoJson
deriving DecidableEq, Repr

/-- The entry dictionary built for one approach by `write_to_json`
(`write.py` lines 66-79). -/
def jsonEntryOf (approach : CloseApproach) : ApproachJson :=
  let neo := approach.neo
  { datetime_utc := approach.time_str
    distance_au := approach.distance
    velocity_km_s := approach.velocity
    neo :=
      { designation :=
          match neo with
          | some n => pyValOfOptStr n.designation
          | Option.none => PyVal.str ""
        name :=
          match neo with
          | some n => if pyTruthy n.name then PyVal.str (n.name.getD "") else PyVal.str ""
          | Option.none => PyVal.str ""
        diameter_km :=
          match neo with
          | some n => n.diameter
          | Option.none => PyFloat.nan
        potentially_hazardous :=
          match neo with
          | some n => n.hazardous
          | Option.none => false } }

/-- The document written by `write_to_json` (`write.py` lines 53-82):
one nested entry per approach of the `results` stream, in stream
order. -/
def write_to_json (results : List CloseApproach) : List ApproachJson :=
  results.map jsonEntryOf

/-- A file-system event performed by a writer on its destination. -/
inductive FsEvent where
  | opened
  | wrote (doc : List ApproachJson)
  | closed
deriving DecidableEq, Repr

/-- The accumulation loop of `write_to_json` (`write.py` lines 64-79)
run over an iterable whose iteration may raise: the loop appends
entries in order and propagates the first error. -/
def buildJsonOutput : List (Except Unit CloseApproach) → Except Unit (List ApproachJson)
  | [] => Except.ok []
  | Except.error e :: _ => Except.error e
  | Except.ok a :: rest => (buildJsonOutput rest).map (fun doc => jsonEntryOf a :: doc)

/-- The effect trace of `write_to_json` (`write.py` lines 53-82),
following the source's statement order: the loop over `results`
(lines 64-79) runs to completion first, and only then is the
destination opened, written in one dump and closed (lines 81-82).
An error raised during iteration therefore propagates (`Except.error`)
with no file event having occurred. -/
def write_to_json_effects (results : List (Except Unit CloseApproach)) :
    Except Unit (List FsEvent) :=
  match buildJsonOutput results with
  | Except.error e => Except.error e
  | Except.ok doc => Except.ok [FsEvent.opened, FsEvent.wrote doc, FsEvent.closed]

/-! ### Helper lemmas -/

theorem strOrNone_of_not_truthy (v : RawValue) (h : v.truthy = false) :
    strOrNone v = Option.none := by
  cases v with
  | none => rfl
  | str s =>
    simp [RawValue.truthy] at h
    simp [strOrNone, h]

theorem pyFloatOf_of_parse_none (v : RawValue) (h : parseFloat v = Option.none) :
    pyFloatOf v = PyFloat.nan := by
  unfold pyFloatOf
  rw [h]

theorem pyFloatOf_of_parse_some (v : RawValue) (x : PyFloat)
    (h : parseFloat v = some x) : pyFloatOf v = x := by
  unfold pyFloatOf
  rw [h]

/-! ### Claim theorems -/

/-- C1: Construction of `NearEarthObject` and `CloseApproach` never
raises on missing or unparsable designation, name, diameter, distance,
velocity, or hazard-flag input: the constructors (total functions
here, mirroring the `try/except` and truthiness guards of the source)
complete and store the documented sentinels — `None` for absent
strings, the not-a-number sentinel for unparsable numerics, `false`
for a hazard flag other than `"Y"`. -/
theorem construction_degrades_to_sentinels
    (pdes name pha diameter des dist v_rel : RawValue) (cd : DateTime) :
    (pdes.truthy = false →
      (mkNearEarthObject pdes name pha diameter).designation = Option.none) ∧
    (name.truthy = false →
      (mkNearEarthObject pdes name pha diameter).name = Option.none) ∧
    (parseFloat diameter = Option.none →
      (mkNearEarthObject pdes name pha diameter).diameter = PyFloat.nan) ∧
    (pha ≠ RawValue.str "Y" →
      (mkNearEarthObject pdes name pha diameter).hazardous = false) ∧
    (des.truthy = false →
      (mkCloseApproach des cd dist v_rel)._designation = Option.none) ∧
    (parseFloat dist = Option.none →
      (mkCloseApproach des cd dist v_rel).distance = PyFloat.nan) ∧
    (parseFloat v_rel = Option.none →
      (mkCloseApproach des cd dist v_rel).velocity = PyFloat.nan) := by
  refine ⟨fun h => ?_, fun h => ?_, fun h => ?_, fun h => ?_,
    fun h => ?_, fun h => ?_, fun h => ?_⟩
  · exact strOrNone_of_not_truthy pdes h
  · exact strOrNone_of_not_truthy name h
  · exact pyFloatOf_of_parse_none diameter h
  · simp [mkNearEarthObject, h]
  · exact strOrNone_of_not_truthy des h
  · exact pyFloatOf_of_parse_none dist h
  · exact pyFloatOf_of_parse_none v_rel h

/-- Witness for C1 at concrete malformed inputs: empty designation,
absent name, hazard flag `"N"`, non-numeric diameter, and for the
approach an empty designation, an absent distance and a non-numeric
velocity. -/
theorem construction_degrades_to_sentinels_witness :
    (mkNearEarthObject (RawValue.str "") RawValue.none (RawValue.str "N")
      (RawValue.str "abc")).designation = Option.none ∧
    (mkNearEarthObject (RawValue.str "") RawValue.none (RawValue.str "N")
      (RawValue.str "abc")).name = Option.none ∧
    (mkNearEarthObject (RawValue.str "") RawValue.none (RawValue.str "N")
      (RawValue.str "abc")).diameter = PyFloat.nan ∧
    (mkNearEarthObject (RawValue.str "") RawValue.none (RawValue.str "N")
      (RawValue.str "abc")).hazardous = false ∧
    (mkCloseApproach (RawValue.str "") ⟨2020, 1, 1, 0, 0⟩ RawValue.none
      (RawValue.str "fast"))._designation = Option.none ∧
    (mkCloseApproach (RawValue.str "") ⟨2020, 1, 1, 0, 0⟩ RawValue.none
      (RawValue.str "fast")).distance = PyFloat.nan ∧
    (mkCloseApproach (RawValue.str "") ⟨2020, 1, 1, 0, 0⟩ RawValue.none
      (RawValue.str "fast")).velocity = PyFloat.nan := by
  have t := construction_degrades_to_sentinels (RawValue.str "") RawValue.none
    (RawValue.str "N") (RawValue.str "abc") (RawValue.str "") RawValue.none
    (RawValue.str "fast") ⟨2020, 1, 1, 0, 0⟩
  exact ⟨t.1 (by decide), t.2.1 (by decide), t.2.2.1 (by decide),
    t.2.2.2.1 (by decide), t.2.2.2.2.1 (by decide), t.2.2.2.2.2.1 (by decide),
    t.2.2.2.2.2.2 (by decide)⟩

/-- C2: the constructed NEO's `hazardous` attribute is true if and
only if the raw flag is exactly the string `"Y"`; every other raw
value (including `"N"`, the empty string and `None`) yields false. -/
theorem hazardous_iff_flag_Y (pdes name pha diameter : RawValue) :
    (mkNearEarthObject pdes name pha diameter).hazardous = true ↔
      pha = RawValue.str "Y" := by
  simp [mkNearEarthObject]

/-- C3: every numeric field follows the parse-or-sentinel policy: a
diameter input that `float(...)` accepts is stored as the parsed
value, an unparsable one as the not-a-number sentinel, and the same
holds for a `CloseApproach`'s distance and velocity. -/
theorem numeric_fields_parse_or_sentinel
    (pdes name pha diameter des dist v_rel : RawValue) (cd : DateTime) :
    (∀ x, parseFloat diameter = some x →
      (mkNearEarthObject pdes name pha diameter).diameter = x) ∧
    (parseFloat diameter = Option.none →
      (mkNearEarthObject pdes name pha diameter).diameter = PyFloat.nan) ∧
    (∀ x, parseFloat dist = some x →
      (mkCloseApproach des cd dist v_rel).distance = x) ∧
    (parseFloat dist = Option.none →
      (mkCloseApproach des cd dist v_rel).distance = PyFloat.nan) ∧
    (∀ x, parseFloat v_rel = some x →
      (mkCloseApproach des cd dist v_rel).velocity = x) ∧
    (parseFloat v_rel = Option.none →
      (mkCloseApproach des cd dist v_rel).velocity = PyFloat.nan) :=
  ⟨fun x h => pyFloatOf_of_parse_some diameter x h,
   fun h => pyFloatOf_of_parse_none diameter h,
   fun x h => pyFloatOf_of_parse_some dist x h,
   fun h => pyFloatOf_of_parse_none dist h,
   fun x h => pyFloatOf_of_parse_some v_rel x h,
   fun h => pyFloatOf_of_parse_none v_rel h⟩

/-- Witness for C3: diameter `"0.15"` parses and is stored as
`3/20`; an empty distance degrades to the sentinel; velocity `"12.5"`
parses and is stored as `25/2`. -/
theorem numeric_fields_parse_or_sentinel_witness :
    (mkNearEarthObject RawValue.none RawValue.none RawValue.none
      (RawValue.str "0.15")).diameter = PyFloat.val (mkRat 3 20) ∧
    (mkCloseApproach RawValue.none ⟨2020, 1, 1, 0, 0⟩ (RawValue.str "")
      (RawValue.str "12.5")).distance = PyFloat.nan ∧
    (mkCloseApproach RawValue.none ⟨2020, 1, 1, 0, 0⟩ (RawValue.str "")
      (RawValue.str "12.5")).velocity = PyFloat.val (mkRat 25 2) := by
  have t := numeric_fields_parse_or_sentinel RawValue.none RawValue.none
    RawValue.none (RawValue.str "0.15") RawValue.none (RawValue.str "")
    (RawValue.str "12.5") ⟨2020, 1, 1, 0, 0⟩
  exact ⟨t.1 _ (by decide), t.2.2.2.1 (by decide), t.2.2.2.2.1 _ (by decide)⟩

/-- C8: when designation and name are both present the full name is
the designation, a space, and the name — in particular `"433 Eros"`
for Eros — and when the name is absent the accessor fails (the
string concatenation raises `TypeError`, modelled as `Option.none`)
instead of falling back to the designation alone. -/
theorem fullname_spec (neo : NearEarthObject) :
    (∀ d n, neo.designation = some d → neo.name = some n →
      neo.fullname = some (d ++ " " ++ n)) ∧
    (neo.name = Option.none → neo.fullname = Option.none) ∧
    (mkNearEarthObject (RawValue.str "433") (RawValue.str "Eros")
      RawValue.none RawValue.none).fullname = some "433 Eros" := by
  refine ⟨fun d n hd hn => ?_, fun hn => ?_, by decide⟩
  · simp [NearEarthObject.fullname, hd, hn]
  · cases hdes : neo.designation <;> simp [NearEarthObject.fullname, hdes, hn]

/-- Witness for C8: the Eros full name, and the failing accessor on
an NEO built with designation `"1"` and no name. -/
theorem fullname_spec_witness :
    (mkNearEarthObject (RawValue.str "433") (RawValue.str "Eros")
      RawValue.none RawValue.none).fullname = some "433 Eros" ∧
    (mkNearEarthObject (RawValue.str "1") RawValue.none
      RawValue.none RawValue.none).fullname = Option.none := by
  refine ⟨(fullname_spec (mkNearEarthObject (RawValue.str "433")
    (RawValue.str "Eros") RawValue.none RawValue.none)).2.2, ?_⟩
  exact (fullname_spec (mkNearEarthObject (RawValue.str "1") RawValue.none
    RawValue.none RawValue.none)).2.1 (by decide)

theorem csvRowOf_eq_entry (a : CloseApproach) :
    csvRowOf a =
      [PyVal.str (jsonEntryOf a).datetime_utc,
       PyVal.float (jsonEntryOf a).distance_au,
       PyVal.float (jsonEntryOf a).velocity_km_s,
       (jsonEntryOf a).neo.designation,
       (jsonEntryOf a).neo.name,
       PyVal.float (jsonEntryOf a).neo.diameter_km,
       PyVal.bool (jsonEntryOf a).neo.potentially_hazardous] := by
  cases hneo : a.neo <;> simp [csvRowOf, jsonEntryOf, hneo]

/-- The CSV row a JSON entry's fields describe, column for column. -/
def csvRowOfJsonEntry (e : ApproachJson) : List PyVal :=
  [PyVal.str e.datetime_utc, PyVal.float e.distance_au,
   PyVal.float e.velocity_km_s, e.neo.designation, e.neo.name,
   PyVal.float e.neo.diameter_km, PyVal.bool e.neo.potentially_hazardous]

/-- C4: the tabular writer emits exactly one header row carrying the
seven fixed column names in order, then exactly one data row of seven
cells per input record, in input order; on the empty input the
content is header-only. -/
theorem write_to_csv_shape (results : List CloseApproach) :
    (write_to_csv results).header =
      ["datetime_utc", "distance_au", "velocity_km_s",
       "designation", "name", "diameter_km", "potentially_hazardous"] ∧
    (write_to_csv results).rows.length = results.length ∧
    (∀ i : Nat, (write_to_csv results).rows[i]? = (results[i]?).map csvRowOf) ∧
    (∀ a, (csvRowOf a).length = 7) ∧
    (write_to_csv []).rows = [] := by
  refine ⟨rfl, ?_, ?_, fun a => rfl, rfl⟩
  · simp [write_to_csv]
  · intro i
    simp [write_to_csv]

/-- C5: the structured writer produces a single top-level sequence of
exactly one nested entry per input record, in input order, each entry
carrying the datetime, distance, velocity and the nested NEO record;
on the empty input the sequence is empty. -/
theorem write_to_json_shape (results : List CloseApproach) :
    (write_to_json results).length = results.length ∧
    (∀ i : Nat, (write_to_json results)[i]? = (results[i]?).map jsonEntryOf) ∧
    (∀ a, (jsonEntryOf a).datetime_utc = a.time_str ∧
      (jsonEntryOf a).distance_au = a.distance ∧
      (jsonEntryOf a).velocity_km_s = a.velocity) ∧
    write_to_json [] = [] := by
  refine ⟨?_, ?_, fun a => ⟨rfl, rfl, rfl⟩, rfl⟩
  · simp [write_to_json]
  · intro i
    simp [write_to_json]

/-- C6: on a record whose `neo` reference is unset, both writers emit
empty designation and name, the not-a-number diameter sentinel and a
false hazard flag (and, being total functions, raise nothing). -/
theorem writers_default_on_missing_neo (a : CloseApproach)
    (h : a.neo = Option.none) :
    csvRowOf a =
      [PyVal.str a.time_str, PyVal.float a.distance, PyVal.float a.velocity,
       PyVal.str "", PyVal.str "", PyVal.float PyFloat.nan,
       PyVal.bool false] ∧
    jsonEntryOf a =
      { datetime_utc := a.time_str
        distance_au := a.distance
        velocity_km_s := a.velocity
        neo :=
          { designation := PyVal.str ""
            name := PyVal.str ""
            diameter_km := PyFloat.nan
            potentially_hazardous := false } } := by
  constructor
  · simp [csvRowOf, h]
  · simp [jsonEntryOf, h]

/-- Witness for C6 on a freshly constructed, unlinked approach. -/
theorem writers_default_on_missing_neo_witness :
    csvRowOf (mkCloseApproach (RawValue.str "433") ⟨2020, 1, 1, 0, 0⟩
        (RawValue.str "") (RawValue.str "")) =
      [PyVal.str "2020-01-01 00:00", PyVal.float PyFloat.nan,
       PyVal.float PyFloat.nan, PyVal.str "", PyVal.str "",
       PyVal.float PyFloat.nan, PyVal.bool false] ∧
    jsonEntryOf (mkCloseApproach (RawValue.str "433") ⟨2020, 1, 1, 0, 0⟩
        (RawValue.str "") (RawValue.str "")) =
      { datetime_utc := "2020-01-01 00:00"
        distance_au := PyFloat.nan
        velocity_km_s := PyFloat.nan
        neo :=
          { designation := PyVal.str ""
            name := PyVal.str ""
            diameter_km := PyFloat.nan
            potentially_hazardous := false } } := by
  have t := writers_default_on_missing_neo (mkCloseApproach (RawValue.str "433")
    ⟨2020, 1, 1, 0, 0⟩ (RawValue.str "") (RawValue.str "")) (by decide)
  exact ⟨t.1.trans (by decide), t.2.trans (by decide)⟩

/-- C9: the two serializers are schema-compatible: at every index the
seven values of the tabular row equal, column for column, the values
of the structured writer's nested entry on the same input. -/
theorem serializers_schema_compatible (results : List CloseApproach) :
    ∀ i : Nat, (write_to_csv results).rows[i]? =
      ((write_to_json results)[i]?).map csvRowOfJsonEntry := by
  intro i
  simp only [write_to_csv, write_to_json, List.getElem?_map]
  cases h : results[i]? with
  | none => rfl
  | some a =>
    simp [csvRowOfJsonEntry, csvRowOf_eq_entry a]

theorem buildJsonOutput_error_of_mem (rs : List (Except Unit CloseApproach))
    (h : Except.error () ∈ rs) : buildJsonOutput rs = Except.error () := by
  induction rs with
  | nil => cases h
  | cons r rest ih =>
    cases r with
    | error e => rfl
    | ok a =>
      have hrest : Except.error () ∈ rest := by
        cases h with
        | tail _ h' => exact h'
      simp [buildJsonOutput, ih hrest, Except.map]

theorem buildJsonOutput_ok_map (cas : List CloseApproach) :
    buildJsonOutput (cas.map Except.ok) = Except.ok (cas.map jsonEntryOf) := by
  induction cas with
  | nil => rfl
  | cons a rest ih => simp [buildJsonOutput, ih, Except.map]

/-- C10: the structured writer consumes the whole input and builds
the entire document before any file event: an iteration error
propagates with an empty effect trace (the destination is never
opened), while a fully consumed input yields a single
open-write-close of the complete document. -/
theorem write_to_json_builds_before_opening
    (results : List (Except Unit CloseApproach)) :
    (Except.error () ∈ results →
      write_to_json_effects results = Except.error ()) ∧
    (∀ cas : List CloseApproach, results = cas.map Except.ok →
      write_to_json_effects results =
        Except.ok [FsEvent.opened, FsEvent.wrote (write_to_json cas),
          FsEvent.closed]) := by
  constructor
  · intro h
    simp [write_to_json_effects, buildJsonOutput_error_of_mem results h]
  · intro cas hcas
    subst hcas
    simp [write_to_json_effects, buildJsonOutput_ok_map, write_to_json]

/-- Witness for C10: an iterable raising after one element produces
no file event, and a two-element iterable that completes produces the
single open-write-close trace of the full document. -/
theorem write_to_json_builds_before_opening_witness :
    write_to_json_effects
      [Except.ok (mkCloseApproach RawValue.none ⟨2020, 1, 1, 0, 0⟩
        RawValue.none RawValue.none), Except.error ()] = Except.error () ∧
    write_to_json_effects
      [Except.ok (mkCloseApproach RawValue.none ⟨2020, 1, 1, 0, 0⟩
        RawValue.none RawValue.none)] =
      Except.ok [FsEvent.opened,
        FsEvent.wrote (write_to_json [mkCloseApproach RawValue.none
          ⟨2020, 1, 1, 0, 0⟩ RawValue.none RawValue.none]),
        FsEvent.closed] := by
  constructor
  · exact (write_to_json_builds_before_opening _).1 (by simp)
  · exact (write_to_json_builds_before_opening _).2 _ rfl

/-- The Eros record used to exhibit the display-phrase precedence. -/
def erosNeo : NearEarthObject :=
  mkNearEarthObject (RawValue.str "433") (RawValue.str "Eros")
    RawValue.none RawValue.none

/-- An approach constructed with a falsy designation and then linked
to Eros by the external linking step (which assigns `neo`). -/
def orphanApproach : CloseApproach :=
  { mkCloseApproach RawValue.none ⟨2020, 1, 1, 0, 0⟩ RawValue.none
      RawValue.none with
    neo := some erosNeo }

/-- C7 counterexample: the claim keys the phrase on linkage, but the
source keys it on the designation snapshot — here the record is
linked to an NEO whose name `"Eros"` is present, yet because the
snapshot is absent the phrase is `"by an unknown object"`, not the
linked NEO's name. -/
theorem neo_reference_claim_counterexample :
    orphanApproach.neo = some erosNeo ∧
    erosNeo.name = some "Eros" ∧
    neoReference orphanApproach = "by an unknown object" ∧
    neoReference orphanApproach ≠ "by Eros" := by decide

/-- C7 amended: the phrase is keyed on the construction-time
designation snapshot: when the snapshot is falsy the phrase is
`"by an unknown object"` (even when a NEO is linked); when the
snapshot holds `d`, the phrase is the linked NEO's name when a NEO
is linked and its name is truthy, and otherwise `"by d"` (the
snapshot — never the linked NEO's own designation). -/
theorem neo_reference_cases (a : CloseApproach) :
    (pyTruthy a._designation = false →
      neoReference a = "by an unknown object") ∧
    (∀ d, a._designation = some d → d ≠ "" →
      ((∃ neo n, a.neo = some neo ∧ neo.name = some n ∧ n ≠ "" ∧
          neoReference a = "by " ++ n) ∨
        ((∀ neo, a.neo = some neo → pyTruthy neo.name = false) ∧
          neoReference a = "by " ++ d))) := by
  constructor
  · intro h
    simp [neoReference, h]
  · intro d hd hne
    have ht : pyTruthy (some d) = true := by simp [pyTruthy, hne]
    cases hneo : a.neo with
    | none =>
      refine Or.inr ⟨fun neo h' => Option.noConfusion h', ?_⟩
      simp [neoReference, hd, hneo, ht]
    | some neo =>
      cases hn : neo.name with
      | none =>
        refine Or.inr ⟨fun neo' h' => ?_, ?_⟩
        · cases h'
          simp [pyTruthy, hn]
        · simp [neoReference, hd, hneo, hn, ht]
      | some n =>
        by_cases hn2 : n = ""
        · refine Or.inr ⟨fun neo' h' => ?_, ?_⟩
          · cases h'
            simp [pyTruthy, hn, hn2]
          · simp [neoReference, hd, hneo, hn, hn2, ht]
        · exact Or.inl ⟨neo, n, rfl, hn, hn2, by
            simp [neoReference, hd, hneo, hn, hn2, ht]⟩

/-- Witness for the amended C7: a snapshotless approach displays
`"by an unknown object"`, and an unlinked approach with snapshot
`"433"` displays `"by 433"`. -/
theorem neo_reference_cases_witness :
    neoReference (mkCloseApproach RawValue.none ⟨2020, 1, 1, 0, 0⟩
      RawValue.none RawValue.none) = "by an unknown object" ∧
    neoReference (mkCloseApproach (RawValue.str "433") ⟨2020, 1, 1, 0, 0⟩
      RawValue.none RawValue.none) = "by 433" := by
  constructor
  · exact (neo_reference_cases _).1 (by decide)
  · have t := (neo_reference_cases (mkCloseApproach (RawValue.str "433")
      ⟨2020, 1, 1, 0, 0⟩ RawValue.none RawValue.none)).2 "433" (by decide)
      (by decide)
    rcases t with ⟨neo, n, hneo, _⟩ | ⟨_, h⟩
    · rw [show (mkCloseApproach (RawValue.str "433") ⟨2020, 1, 1, 0, 0⟩
        RawValue.none RawValue.none).neo = Option.none from rfl] at hneo
      cases hneo
    · exact h
